import Mathlib

/-!
Verification of the natural-language specification of `src/stream_wrap.cc`
(the `LibuvStreamWrap` non-blocking stream I/O adapter) against a shallow
embedding of the code.

The embedding models the C++ functions of the source file as pure Lean
functions.  Pointers into caller memory become `(base, len)` views with the
base an abstract address (`Nat`); machine integers become `Nat`/`Int` with an
explicit `% 2 ^ 32` where the code performs a narrowing conversion; calls into
external collaborators (libuv syscalls, the `HandleWrap` close-state machine,
the V8 object layer) become oracle parameters or explicit state fields, and
their observable effects (which kernel dispatch form ran, whether `ABORT()`
fired, what was handed to `EmitRead`) are recorded in result structures.
-/

/-- libuv operation-not-supported error constant (value on Linux). -/
def UV_ENOSYS : Int := -38

/-- libuv `EAGAIN` / would-block error constant (value on Linux). -/
def UV_EAGAIN : Int := -11

/-- libuv `EINVAL` invalid-argument error constant (value on Linux). -/
def UV_EINVAL : Int := -22

/-- A `uv_buf_t`: a `(base, len)` view into caller-owned memory.  The base
pointer is modelled as an abstract address. -/
structure uv_buf_t where
  base : Nat
  len : Nat
deriving DecidableEq

/-- Total byte length of a buffer sequence. -/
def totalLen (bufs : List uv_buf_t) : Nat :=
  (bufs.map uv_buf_t.len).sum

/-- `uv_handle_type` values relevant to the source.  `tty` stands for any
handle type other than the three accepted stream kinds and
`UV_UNKNOWN_HANDLE`. -/
inductive UvHandleType
  | tcp
  | namedPipe
  | udp
  | tty
  | unknown
deriving DecidableEq

/-- Which process-wide instrumentation counter a byte count is attributed to
(`NODE_COUNT_NET_BYTES_*` vs `NODE_COUNT_PIPE_BYTES_*`). -/
inductive CounterKind
  | net
  | pipe
deriving DecidableEq

/-- The wrapper variants `AcceptHandle` can instantiate for a transferred
handle (`TCPWrap`, `PipeWrap`, `UDPWrap`). -/
inductive WrapKind
  | tcpWrap
  | pipeWrap
  | udpWrap
deriving DecidableEq

/-- Which kernel dispatch form `DoWrite` used. -/
inductive WriteForm
  | uvWrite
  | uvWrite2
deriving DecidableEq

/-- The modelled state of the underlying `uv_stream_t`.  `write_queue_size`
is the kernel's `size_t` count of queued-but-unsent bytes; `type` is the
handle-type tag consulted by `DoWrite` for counter attribution. -/
structure uv_stream_state where
  write_queue_size : Nat
  type : UvHandleType
deriving DecidableEq

/-- The adapter state visible to `IsAlive`, `SetBlocking` and
`GetWriteQueueSize`.  `handleAlive` is the external `HandleWrap::IsAlive`
close-state signal (false once close has begun); `stream` is the `stream_`
pointer, `none` once nulled by the external close protocol. -/
structure WrapState where
  handleAlive : Bool
  stream : Option uv_stream_state
deriving DecidableEq

/-- Oracle outcomes of the external calls made inside `AcceptHandle`:
whether `WrapType::Instantiate` plus the unwrap produced a usable object, and
whether `uv_accept` returned 0. -/
structure AcceptEnv where
  instantiateOk : Bool
  acceptOk : Bool
deriving DecidableEq

/-- Observable result of `AcceptHandle`: an empty `Local<Object>` (early
return), a process-terminating `ABORT()`, or the escaped wrapper object. -/
inductive AcceptOutcome
  | empty
  | fatal
  | accepted (k : WrapKind)
deriving DecidableEq

/-- One in-flight-read state of the adapter as seen by `OnUvRead`:
`is_named_pipe_ipc` and the libuv pending-handle queries
(`uv_pipe_pending_count`, `uv_pipe_pending_type`), plus the handle-kind
predicates used for counter attribution. -/
structure PipeState where
  is_named_pipe_ipc : Bool
  pendingCount : Nat
  pendingType : UvHandleType
  is_tcp : Bool
  is_named_pipe : Bool
deriving DecidableEq

/-- Everything observable about one `OnUvRead` invocation: whether a failed
`CHECK`/`ABORT()` terminated the process, whether `AcceptHandle` ran and its
`uv_accept` succeeded, the value stored into the `pendingHandle` property (if
any), the argument pair handed to `EmitRead` (if reached), the receive-counter
attribution, and whether `OnUvRead` closed the handle or called
`uv_read_stop` (the code never does either). -/
structure ReadOutcome where
  fatalAbort : Bool
  acceptorInvoked : Bool
  acceptCompleted : Bool
  pendingHandle : Option WrapKind
  emitRead : Option (Int × uv_buf_t)
  recvCounter : Option CounterKind
  closedHandle : Bool
  stoppedReading : Bool
deriving DecidableEq

/-- Result of `DoWrite`: the returned status, the dispatch form used, whether
`w->Dispatched()` was invoked, and the instrumentation increment (byte count
and counter attribution). -/
structure DoWriteResult where
  ret : Int
  form : WriteForm
  dispatchedCalled : Bool
  bytesCounted : Nat
  sentCounter : Option CounterKind
deriving DecidableEq

/-- Result of `SetBlocking`: the value set as return value, and whether the
kernel-level `uv_stream_set_blocking` call was made. -/
structure SetBlockingResult where
  ret : Int
  kernelCalled : Bool
deriving DecidableEq

namespace LibuvStreamWrap

/-- The slicing loop of `LibuvStreamWrap::DoTryWrite` (stream_wrap.cc lines
312-324): skip every buffer wholly covered by `written` and slice the first
buffer that is not, advancing its base and shrinking its length by the
remaining written count, then stop. -/
def sliceWritten : List uv_buf_t → Nat → List uv_buf_t
  | [], _ => []
  | b :: rest, written =>
    if written < b.len then
      { base := b.base + written, len := b.len - written } :: rest
    else
      sliceWritten rest (written - b.len)

/-- `LibuvStreamWrap::DoTryWrite` (stream_wrap.cc lines 297-330).
`tryWriteResult` is the value returned by the external `uv_try_write` call:
a non-negative written byte count or a negative error code.  The result pair
is (return value, buffer sequence left in the in/out parameters). -/
def DoTryWrite (bufs : List uv_buf_t) (tryWriteResult : Int) :
    Int × List uv_buf_t :=
  if tryWriteResult = UV_ENOSYS ∨ tryWriteResult = UV_EAGAIN then
    (0, bufs)
  else if tryWriteResult < 0 then
    (tryWriteResult, bufs)
  else
    (0, sliceWritten bufs tryWriteResult.toNat)

/-- `LibuvStreamWrap::DoWrite` (stream_wrap.cc lines 333-359).  `streamType`
is `stream()->type`; `send_handle` is the optional handle to transfer;
`kernelStatus` is the status returned by the external `uv_write` /
`uv_write2` call that was dispatched. -/
def DoWrite (streamType : UvHandleType) (bufs : List uv_buf_t)
    (send_handle : Option Unit) (kernelStatus : Int) : DoWriteResult :=
  { ret := kernelStatus
    form := if send_handle = none then WriteForm.uvWrite else WriteForm.uvWrite2
    dispatchedCalled := true
    bytesCounted := if kernelStatus = 0 then totalLen bufs else 0
    sentCounter :=
      if kernelStatus = 0 then
        if streamType = UvHandleType.tcp then some CounterKind.net
        else if streamType = UvHandleType.namedPipe then some CounterKind.pipe
        else none
      else none }

/-- `LibuvStreamWrap::IsAlive` (stream_wrap.cc lines 132-134): delegates to
the external `HandleWrap::IsAlive` close-state signal. -/
def IsAlive (w : WrapState) : Bool :=
  w.handleAlive

/-- `LibuvStreamWrap::SetBlocking` (stream_wrap.cc lines 262-272).
`uvSetBlockingStatus` is the status the external `uv_stream_set_blocking`
call would return for a given enable flag. -/
def SetBlocking (w : WrapState) (enable : Bool)
    (uvSetBlockingStatus : Bool → Int) : SetBlockingResult :=
  if IsAlive w = false then
    { ret := UV_EINVAL, kernelCalled := false }
  else
    { ret := uvSetBlockingStatus enable, kernelCalled := true }

/-- `LibuvStreamWrap::GetWriteQueueSize` (stream_wrap.cc lines 247-259):
returns 0 when `stream_` is null, otherwise the handle's `size_t`
`write_queue_size` narrowed to `uint32_t` (the code assigns it to a
`uint32_t` local before setting the return value). -/
def GetWriteQueueSize (w : WrapState) : Nat :=
  match w.stream with
  | none => 0
  | some s => s.write_queue_size % 2 ^ 32

/-- `AcceptHandle<WrapType, UVType>` (stream_wrap.cc lines 179-199):
instantiate the wrapper of kind `k`; on an empty object return an empty
local; otherwise `uv_accept` against the parent stream, calling `ABORT()` on
failure; otherwise escape the wrapper object. -/
def AcceptHandle (k : WrapKind) (env : AcceptEnv) : AcceptOutcome :=
  if env.instantiateOk = false then AcceptOutcome.empty
  else if env.acceptOk = false then AcceptOutcome.fatal
  else AcceptOutcome.accepted k

/-- The wrapper kind `OnUvRead` selects for each pending handle type
(`UV_TCP → TCPWrap`, `UV_NAMED_PIPE → PipeWrap`, `UV_UDP → UDPWrap`). -/
def matchingWrap : UvHandleType → Option WrapKind
  | UvHandleType.tcp => some WrapKind.tcpWrap
  | UvHandleType.namedPipe => some WrapKind.pipeWrap
  | UvHandleType.udp => some WrapKind.udpWrap
  | _ => none

/-- The `type` local of `OnUvRead` (stream_wrap.cc lines 205-211): the
pending handle type is queried only on an IPC named pipe with a positive
pending count, and is `UV_UNKNOWN_HANDLE` otherwise. -/
def pendingHandleType (st : PipeState) : UvHandleType :=
  if st.is_named_pipe_ipc = true ∧ 0 < st.pendingCount then st.pendingType
  else UvHandleType.unknown

/-- Receive-counter attribution of `OnUvRead` for a successful read
(`NODE_COUNT_NET_BYTES_RECV` on a TCP handle, `NODE_COUNT_PIPE_BYTES_RECV`
on a named pipe). -/
def recvCounterOf (st : PipeState) : Option CounterKind :=
  if st.is_tcp then some CounterKind.net
  else if st.is_named_pipe then some CounterKind.pipe
  else none

/-- `LibuvStreamWrap::OnUvRead` (stream_wrap.cc lines 202-244).  The pending
type is computed first; on a positive `nread` the matching wrapper is
accepted (with `CHECK_EQ(type, UV_UNKNOWN_HANDLE)` aborting on any other
type) and a non-empty wrapper is stored in the `pendingHandle` property;
in every surviving branch `(nread, buf)` is handed to `EmitRead`. -/
def OnUvRead (st : PipeState) (env : AcceptEnv) (nread : Int)
    (buf : uv_buf_t) : ReadOutcome :=
  let ty := pendingHandleType st
  if 0 < nread then
    match matchingWrap ty with
    | some k =>
      match AcceptHandle k env with
      | AcceptOutcome.fatal =>
        { fatalAbort := true, acceptorInvoked := true, acceptCompleted := false,
          pendingHandle := none, emitRead := none,
          recvCounter := recvCounterOf st,
          closedHandle := false, stoppedReading := false }
      | AcceptOutcome.empty =>
        { fatalAbort := false, acceptorInvoked := true,
          acceptCompleted := false, pendingHandle := none,
          emitRead := some (nread, buf), recvCounter := recvCounterOf st,
          closedHandle := false, stoppedReading := false }
      | AcceptOutcome.accepted k2 =>
        { fatalAbort := false, acceptorInvoked := true,
          acceptCompleted := true, pendingHandle := some k2,
          emitRead := some (nread, buf), recvCounter := recvCounterOf st,
          closedHandle := false, stoppedReading := false }
    | none =>
      if ty = UvHandleType.unknown then
        { fatalAbort := false, acceptorInvoked := false,
          acceptCompleted := false, pendingHandle := none,
          emitRead := some (nread, buf), recvCounter := recvCounterOf st,
          closedHandle := false, stoppedReading := false }
      else
        { fatalAbort := true, acceptorInvoked := false,
          acceptCompleted := false, pendingHandle := none, emitRead := none,
          recvCounter := recvCounterOf st,
          closedHandle := false, stoppedReading := false }
  else
    { fatalAbort := false, acceptorInvoked := false, acceptCompleted := false,
      pendingHandle := none, emitRead := some (nread, buf),
      recvCounter := none, closedHandle := false, stoppedReading := false }

end LibuvStreamWrap

@[simp]
theorem totalLen_nil : totalLen [] = 0 := rfl

@[simp]
theorem totalLen_cons (b : uv_buf_t) (l : List uv_buf_t) :
    totalLen (b :: l) = b.len + totalLen l := by
  simp [totalLen]

namespace LibuvStreamWrap

theorem doTryWrite_nonneg (bufs : List uv_buf_t) (W : Nat) :
    DoTryWrite bufs (W : Int) = (0, sliceWritten bufs W) := by
  have h1 : ¬((W : Int) = UV_ENOSYS ∨ (W : Int) = UV_EAGAIN) := by
    unfold UV_ENOSYS UV_EAGAIN
    omega
  have h2 : ¬((W : Int) < 0) := by omega
  rw [DoTryWrite, if_neg h1, if_neg h2]
  simp

theorem sliceWritten_totalLen (bufs : List uv_buf_t) (W : Nat)
    (h : W ≤ totalLen bufs) :
    totalLen (sliceWritten bufs W) = totalLen bufs - W := by
  induction bufs generalizing W with
  | nil =>
    simp only [totalLen_nil, Nat.le_zero] at h
    simp [sliceWritten, h]
  | cons b rest ih =>
    simp only [totalLen_cons] at h ⊢
    by_cases hw : W < b.len
    · simp only [sliceWritten, if_pos hw, totalLen_cons]
      omega
    · simp only [sliceWritten, if_neg hw]
      rw [ih (W - b.len) (by omega)]
      omega

theorem sliceWritten_structure (bufs : List uv_buf_t) (W : Nat)
    (h : W ≤ totalLen bufs) :
    ∃ k rem, k ≤ bufs.length ∧ W = totalLen (bufs.take k) + rem ∧
      ((bufs.drop k = [] ∧ rem = 0 ∧ sliceWritten bufs W = []) ∨
       (∃ b, bufs.drop k = b :: bufs.drop (k + 1) ∧ rem < b.len ∧
         sliceWritten bufs W =
           { base := b.base + rem, len := b.len - rem } ::
             bufs.drop (k + 1))) := by
  induction bufs generalizing W with
  | nil =>
    simp only [totalLen_nil, Nat.le_zero] at h
    exact ⟨0, 0, by simp [h, sliceWritten]⟩
  | cons b rest ih =>
    by_cases hw : W < b.len
    · refine ⟨0, W, by simp, by simp, Or.inr ⟨b, rfl, hw, ?_⟩⟩
      simp [sliceWritten, if_pos hw]
    · have h' : W - b.len ≤ totalLen rest := by
        simp only [totalLen_cons] at h; omega
      obtain ⟨k, rem, hk, hsum, hcase⟩ := ih (W - b.len) h'
      have hble : b.len ≤ W := Nat.le_of_not_lt hw
      have hsum' : W = totalLen ((b :: rest).take (k + 1)) + rem := by
        clear hcase
        simp only [List.take_succ_cons, totalLen_cons]
        omega
      refine ⟨k + 1, rem, by simpa using hk, hsum', ?_⟩
      simp only [List.drop_succ_cons]
      simpa [sliceWritten, if_neg hw] using hcase

theorem onUvRead_nonpos (st : PipeState) (env : AcceptEnv) (nread : Int)
    (buf : uv_buf_t) (hn : ¬0 < nread) :
    OnUvRead st env nread buf =
      { fatalAbort := false, acceptorInvoked := false,
        acceptCompleted := false, pendingHandle := none,
        emitRead := some (nread, buf), recvCounter := none,
        closedHandle := false, stoppedReading := false } := by
  simp [OnUvRead, hn]

theorem onUvRead_unknown (st : PipeState) (env : AcceptEnv) (nread : Int)
    (buf : uv_buf_t) (hn : 0 < nread)
    (hu : pendingHandleType st = UvHandleType.unknown) :
    OnUvRead st env nread buf =
      { fatalAbort := false, acceptorInvoked := false,
        acceptCompleted := false, pendingHandle := none,
        emitRead := some (nread, buf), recvCounter := recvCounterOf st,
        closedHandle := false, stoppedReading := false } := by
  simp [OnUvRead, hn, hu, matchingWrap]

theorem onUvRead_badtype (st : PipeState) (env : AcceptEnv) (nread : Int)
    (buf : uv_buf_t) (hn : 0 < nread)
    (hmk : matchingWrap (pendingHandleType st) = none)
    (hu : pendingHandleType st ≠ UvHandleType.unknown) :
    OnUvRead st env nread buf =
      { fatalAbort := true, acceptorInvoked := false,
        acceptCompleted := false, pendingHandle := none, emitRead := none,
        recvCounter := recvCounterOf st,
        closedHandle := false, stoppedReading := false } := by
  simp [OnUvRead, hn, hmk, hu]

theorem onUvRead_accept (st : PipeState) (env : AcceptEnv) (nread : Int)
    (buf : uv_buf_t) (k : WrapKind) (hn : 0 < nread)
    (hmk : matchingWrap (pendingHandleType st) = some k) :
    OnUvRead st env nread buf =
      (match AcceptHandle k env with
       | AcceptOutcome.fatal =>
         { fatalAbort := true, acceptorInvoked := true,
           acceptCompleted := false, pendingHandle := none, emitRead := none,
           recvCounter := recvCounterOf st,
           closedHandle := false, stoppedReading := false }
       | AcceptOutcome.empty =>
         { fatalAbort := false, acceptorInvoked := true,
           acceptCompleted := false, pendingHandle := none,
           emitRead := some (nread, buf), recvCounter := recvCounterOf st,
           closedHandle := false, stoppedReading := false }
       | AcceptOutcome.accepted k2 =>
         { fatalAbort := false, acceptorInvoked := true,
           acceptCompleted := true, pendingHandle := some k2,
           emitRead := some (nread, buf), recvCounter := recvCounterOf st,
           closedHandle := false, stoppedReading := false }) := by
  simp [OnUvRead, hn, hmk]

end LibuvStreamWrap

/-- C1 counterexample: for input buffers of lengths `[2, 3]` and `W = 4` the
code leaves one buffer of length 1 whose base is advanced by 2 (not 1) into
the second original buffer: 4 bytes cover the whole first buffer plus the
first 2 bytes of the second, so the remaining byte sits at offset 2. -/
theorem doTryWrite_example_offset_cex :
    LibuvStreamWrap.DoTryWrite [⟨0, 2⟩, ⟨100, 3⟩] 4 = (0, [⟨102, 1⟩]) ∧
    LibuvStreamWrap.DoTryWrite [⟨0, 2⟩, ⟨100, 3⟩] 4 ≠ (0, [⟨101, 1⟩]) := by
  decide

/-- C1 (amended): Partial-write slicing correctness.  For every buffer
sequence of total length `L` and every reported written count `W` with
`0 ≤ W ≤ L`, `DoTryWrite` returns 0 and leaves a buffer sequence of total
remaining length `L - W`: all fully-consumed leading buffers are dropped, at
most one partially-consumed buffer sits at the new front with its base
advanced and its length reduced by the remainder, and the surviving suffix
keeps its order.  In particular for buffers of lengths `[2, 3]` and `W = 4`
the result is one buffer of length 1 at offset 2 into the second original
buffer. -/
theorem doTryWrite_slicing_correct (bufs : List uv_buf_t) (W : Nat)
    (h : W ≤ totalLen bufs) :
    LibuvStreamWrap.DoTryWrite bufs (W : Int) =
      (0, LibuvStreamWrap.sliceWritten bufs W) ∧
    totalLen (LibuvStreamWrap.sliceWritten bufs W) = totalLen bufs - W ∧
    (∃ k rem, k ≤ bufs.length ∧ W = totalLen (bufs.take k) + rem ∧
      ((bufs.drop k = [] ∧ rem = 0 ∧
          LibuvStreamWrap.sliceWritten bufs W = []) ∨
       (∃ b, bufs.drop k = b :: bufs.drop (k + 1) ∧ rem < b.len ∧
         LibuvStreamWrap.sliceWritten bufs W =
           { base := b.base + rem, len := b.len - rem } ::
             bufs.drop (k + 1)))) ∧
    LibuvStreamWrap.DoTryWrite [⟨0, 2⟩, ⟨100, 3⟩] 4 = (0, [⟨102, 1⟩]) :=
  ⟨LibuvStreamWrap.doTryWrite_nonneg bufs W,
   LibuvStreamWrap.sliceWritten_totalLen bufs W h,
   LibuvStreamWrap.sliceWritten_structure bufs W h,
   by decide⟩

/-- Witness for C1 at buffers of lengths `[2, 3]` and `W = 4`. -/
theorem doTryWrite_slicing_correct_witness :
    totalLen (LibuvStreamWrap.sliceWritten [⟨0, 2⟩, ⟨100, 3⟩] 4) =
      totalLen [⟨0, 2⟩, ⟨100, 3⟩] - 4 :=
  (doTryWrite_slicing_correct [⟨0, 2⟩, ⟨100, 3⟩] 4 (by decide)).2.1

/-- C4: TryWrite zero-progress no-op.  If `uv_try_write` reports would-block
(`UV_EAGAIN`) or operation-not-supported (`UV_ENOSYS`), `DoTryWrite` returns
0 with the buffer sequence unchanged; on any other negative code it returns
that code with the buffers unchanged; otherwise it returns 0 — never a
positive byte count. -/
theorem doTryWrite_zero_progress (bufs : List uv_buf_t) (e : Int) :
    ((e = UV_ENOSYS ∨ e = UV_EAGAIN) →
      LibuvStreamWrap.DoTryWrite bufs e = (0, bufs)) ∧
    (e < 0 → ¬(e = UV_ENOSYS ∨ e = UV_EAGAIN) →
      LibuvStreamWrap.DoTryWrite bufs e = (e, bufs)) ∧
    (LibuvStreamWrap.DoTryWrite bufs e).1 ≤ 0 := by
  refine ⟨fun h => by simp [LibuvStreamWrap.DoTryWrite, h], ?_, ?_⟩
  · intro hneg hne
    simp [LibuvStreamWrap.DoTryWrite, hne, hneg]
  · by_cases h1 : e = UV_ENOSYS ∨ e = UV_EAGAIN
    · simp [LibuvStreamWrap.DoTryWrite, h1]
    · by_cases h2 : e < 0
      · simp only [LibuvStreamWrap.DoTryWrite, if_neg h1, if_pos h2]
        omega
      · simp [LibuvStreamWrap.DoTryWrite, h1, h2]

/-- Witness for C4 at a would-block report on one buffer. -/
theorem doTryWrite_zero_progress_witness :
    LibuvStreamWrap.DoTryWrite [⟨7, 5⟩] UV_EAGAIN = (0, [⟨7, 5⟩]) :=
  (doTryWrite_zero_progress [⟨7, 5⟩] UV_EAGAIN).1 (Or.inr rfl)

/-- C2: Handle-passing round trip.  On an IPC-capable pipe with a pending
transferred handle of a stream kind (TCP, named-pipe or UDP), a read
completion with a positive byte count makes `OnUvRead` produce exactly one
accepted wrapper of the matching kind in the `pendingHandle` property, with
the kernel-level accept completed, while the same `(nread, buf)` pair is
still forwarded unmodified to `EmitRead`. -/
theorem onUvRead_handle_round_trip (st : PipeState) (env : AcceptEnv)
    (nread : Int) (buf : uv_buf_t) (k : WrapKind)
    (hipc : st.is_named_pipe_ipc = true) (hcount : 0 < st.pendingCount)
    (hty : LibuvStreamWrap.matchingWrap st.pendingType = some k)
    (hn : 0 < nread) (hi : env.instantiateOk = true)
    (ha : env.acceptOk = true) :
    (LibuvStreamWrap.OnUvRead st env nread buf).pendingHandle = some k ∧
    (LibuvStreamWrap.OnUvRead st env nread buf).acceptCompleted = true ∧
    (LibuvStreamWrap.OnUvRead st env nread buf).emitRead =
      some (nread, buf) ∧
    (LibuvStreamWrap.OnUvRead st env nread buf).fatalAbort = false := by
  have hpt : LibuvStreamWrap.pendingHandleType st = st.pendingType := by
    simp [LibuvStreamWrap.pendingHandleType, hipc, hcount]
  have hacc : LibuvStreamWrap.AcceptHandle k env = AcceptOutcome.accepted k := by
    simp [LibuvStreamWrap.AcceptHandle, hi, ha]
  rw [LibuvStreamWrap.onUvRead_accept st env nread buf k hn (hpt ▸ hty), hacc]
  exact ⟨rfl, rfl, rfl, rfl⟩

/-- Witness for C2: a TCP-kind pending handle on an IPC pipe, `nread = 5`. -/
theorem onUvRead_handle_round_trip_witness :
    (LibuvStreamWrap.OnUvRead ⟨true, 1, UvHandleType.tcp, false, true⟩
        ⟨true, true⟩ 5 ⟨0, 16⟩).pendingHandle = some WrapKind.tcpWrap ∧
    (LibuvStreamWrap.OnUvRead ⟨true, 1, UvHandleType.tcp, false, true⟩
        ⟨true, true⟩ 5 ⟨0, 16⟩).acceptCompleted = true ∧
    (LibuvStreamWrap.OnUvRead ⟨true, 1, UvHandleType.tcp, false, true⟩
        ⟨true, true⟩ 5 ⟨0, 16⟩).emitRead = some (5, ⟨0, 16⟩) ∧
    (LibuvStreamWrap.OnUvRead ⟨true, 1, UvHandleType.tcp, false, true⟩
        ⟨true, true⟩ 5 ⟨0, 16⟩).fatalAbort = false :=
  onUvRead_handle_round_trip _ _ _ _ WrapKind.tcpWrap rfl (by decide) rfl
    (by decide) rfl rfl

/-- C3 counterexample: on a TCP stream — which is not an IPC-capable pipe —
`DoWrite` with a transfer handle still dispatches the dual-handle
`uv_write2` form and returns the kernel status (here 0), instead of
surfacing an `UV_EINVAL`-style invalid-operation error. -/
theorem doWrite_non_ipc_transfer_cex :
    (LibuvStreamWrap.DoWrite UvHandleType.tcp [⟨0, 1⟩] (some ()) 0).form =
      WriteForm.uvWrite2 ∧
    (LibuvStreamWrap.DoWrite UvHandleType.tcp [⟨0, 1⟩] (some ()) 0).ret = 0 ∧
    (LibuvStreamWrap.DoWrite UvHandleType.tcp [⟨0, 1⟩] (some ()) 0).ret ≠
      UV_EINVAL := by
  refine ⟨rfl, rfl, ?_⟩
  unfold LibuvStreamWrap.DoWrite UV_EINVAL
  decide

/-- C3 (amended): whenever a transfer handle is supplied, `DoWrite`
dispatches the dual-handle `uv_write2` form and returns the kernel status,
regardless of whether the adapter is an IPC-capable pipe; no
invalid-operation rejection happens at this layer. -/
theorem doWrite_transfer_handle_dispatches (ty : UvHandleType)
    (bufs : List uv_buf_t) (sh : Option Unit) (hs : sh ≠ none) (r : Int) :
    (LibuvStreamWrap.DoWrite ty bufs sh r).form = WriteForm.uvWrite2 ∧
    (LibuvStreamWrap.DoWrite ty bufs sh r).ret = r := by
  constructor
  · simp [LibuvStreamWrap.DoWrite, hs]
  · rfl

/-- Witness for C3 (amended) at a UDP-typed stream with a transfer handle. -/
theorem doWrite_transfer_handle_dispatches_witness :
    (LibuvStreamWrap.DoWrite UvHandleType.udp [⟨3, 2⟩] (some ()) (-107)).form =
      WriteForm.uvWrite2 ∧
    (LibuvStreamWrap.DoWrite UvHandleType.udp [⟨3, 2⟩] (some ()) (-107)).ret =
      -107 :=
  doWrite_transfer_handle_dispatches UvHandleType.udp [⟨3, 2⟩] (some ())
    (by decide) (-107)

/-- C5: Accept failure is fatal.  When the pending type names a stream kind
and wrapper instantiation succeeded, a failing `uv_accept` makes `OnUvRead`
hit the `ABORT()` branch; when the accept succeeds — as the loop's accurate
pending-handle report guarantees — the abort branch is not reached. -/
theorem acceptHandle_failure_fatal (st : PipeState) (env : AcceptEnv)
    (nread : Int) (buf : uv_buf_t) (k : WrapKind)
    (hty : LibuvStreamWrap.matchingWrap (LibuvStreamWrap.pendingHandleType st) =
      some k)
    (hn : 0 < nread) (hi : env.instantiateOk = true) :
    (env.acceptOk = false →
      (LibuvStreamWrap.OnUvRead st env nread buf).fatalAbort = true) ∧
    (env.acceptOk = true →
      (LibuvStreamWrap.OnUvRead st env nread buf).fatalAbort = false) := by
  rw [LibuvStreamWrap.onUvRead_accept st env nread buf k hn hty]
  constructor
  · intro ha
    simp [LibuvStreamWrap.AcceptHandle, hi, ha]
  · intro ha
    simp [LibuvStreamWrap.AcceptHandle, hi, ha]

/-- Witness for C5: a UDP-kind pending handle on an IPC pipe whose accept
fails aborts, and the same state with a succeeding accept does not. -/
theorem acceptHandle_failure_fatal_witness :
    (LibuvStreamWrap.OnUvRead ⟨true, 2, UvHandleType.udp, false, true⟩
        ⟨true, false⟩ 1 ⟨4, 8⟩).fatalAbort = true :=
  (acceptHandle_failure_fatal ⟨true, 2, UvHandleType.udp, false, true⟩
    ⟨true, false⟩ 1 ⟨4, 8⟩ WrapKind.udpWrap (by decide) (by decide) rfl).1 rfl

/-- C6: Read forwarding is unconditional and unmodified.  In every branch in
which `OnUvRead` survives to the end of the callback (no `ABORT()`), it
forwards exactly the `(nread, buf)` pair it received to `EmitRead`; for a
zero or negative `nread` it always does so; and `OnUvRead` never closes the
handle or stops reading, whatever the code. -/
theorem onUvRead_forwards_unmodified (st : PipeState) (env : AcceptEnv)
    (nread : Int) (buf : uv_buf_t) :
    ((LibuvStreamWrap.OnUvRead st env nread buf).fatalAbort = false →
      (LibuvStreamWrap.OnUvRead st env nread buf).emitRead =
        some (nread, buf)) ∧
    (nread ≤ 0 →
      (LibuvStreamWrap.OnUvRead st env nread buf).emitRead =
        some (nread, buf)) ∧
    (LibuvStreamWrap.OnUvRead st env nread buf).closedHandle = false ∧
    (LibuvStreamWrap.OnUvRead st env nread buf).stoppedReading = false := by
  by_cases hn : 0 < nread
  · rcases hmk : LibuvStreamWrap.matchingWrap
      (LibuvStreamWrap.pendingHandleType st) with _ | k
    · by_cases hu : LibuvStreamWrap.pendingHandleType st = UvHandleType.unknown
      · rw [LibuvStreamWrap.onUvRead_unknown st env nread buf hn hu]
        exact ⟨fun _ => rfl, fun _ => rfl, rfl, rfl⟩
      · rw [LibuvStreamWrap.onUvRead_badtype st env nread buf hn hmk hu]
        exact ⟨fun hfa => by simp at hfa, fun hle => absurd hn (by omega),
          rfl, rfl⟩
    · rw [LibuvStreamWrap.onUvRead_accept st env nread buf k hn hmk]
      rcases hout : LibuvStreamWrap.AcceptHandle k env with _ | _ | k2
      · exact ⟨fun _ => rfl, fun _ => rfl, rfl, rfl⟩
      · exact ⟨fun hfa => by simp at hfa, fun hle => absurd hn (by omega),
          rfl, rfl⟩
      · exact ⟨fun _ => rfl, fun _ => rfl, rfl, rfl⟩
  · rw [LibuvStreamWrap.onUvRead_nonpos st env nread buf hn]
    exact ⟨fun _ => rfl, fun _ => rfl, rfl, rfl⟩

/-- Witness for C6 at an end-of-stream completion (`nread = UV_EOF = -4095`)
on a plain TCP stream. -/
theorem onUvRead_forwards_unmodified_witness :
    (LibuvStreamWrap.OnUvRead ⟨false, 0, UvHandleType.unknown, true, false⟩
        ⟨true, true⟩ (-4095) ⟨9, 0⟩).emitRead = some (-4095, ⟨9, 0⟩) :=
  (onUvRead_forwards_unmodified ⟨false, 0, UvHandleType.unknown, true, false⟩
    ⟨true, true⟩ (-4095) ⟨9, 0⟩).2.1 (by decide)

/-- C7: Liveness gating of `SetBlocking`.  When the handle is not alive
(close has begun), `IsAlive` returns false and `SetBlocking` returns
`UV_EINVAL` without making the kernel-level blocking-mode call; when it is
alive, the kernel call is made and its status returned. -/
theorem setBlocking_liveness_gate (w : WrapState) (enable : Bool)
    (uvStatus : Bool → Int) :
    (w.handleAlive = false →
      LibuvStreamWrap.IsAlive w = false ∧
      LibuvStreamWrap.SetBlocking w enable uvStatus =
        { ret := UV_EINVAL, kernelCalled := false }) ∧
    (w.handleAlive = true →
      LibuvStreamWrap.IsAlive w = true ∧
      LibuvStreamWrap.SetBlocking w enable uvStatus =
        { ret := uvStatus enable, kernelCalled := true }) := by
  constructor
  · intro h
    exact ⟨h, by simp [LibuvStreamWrap.SetBlocking, LibuvStreamWrap.IsAlive, h]⟩
  · intro h
    exact ⟨h, by simp [LibuvStreamWrap.SetBlocking, LibuvStreamWrap.IsAlive, h]⟩

/-- Witness for C7 on a closing adapter (handle no longer alive). -/
theorem setBlocking_liveness_gate_witness :
    LibuvStreamWrap.IsAlive ⟨false, some ⟨0, UvHandleType.tcp⟩⟩ = false ∧
    LibuvStreamWrap.SetBlocking ⟨false, some ⟨0, UvHandleType.tcp⟩⟩ true
        (fun _ => 0) = { ret := UV_EINVAL, kernelCalled := false } :=
  (setBlocking_liveness_gate ⟨false, some ⟨0, UvHandleType.tcp⟩⟩ true
    (fun _ => 0)).1 rfl

/-- C8 counterexample: `GetWriteQueueSize` narrows the handle's `size_t`
`write_queue_size` to `uint32_t`, so a queue depth of `2 ^ 32` bytes is
reported as 0 — not a pure pass-through of the handle's value. -/
theorem getWriteQueueSize_truncation_cex :
    LibuvStreamWrap.GetWriteQueueSize
        ⟨true, some ⟨2 ^ 32, UvHandleType.tcp⟩⟩ = 0 ∧
    (2 ^ 32 : Nat) ≠ 0 := by
  constructor
  · show 2 ^ 32 % 2 ^ 32 = 0
    simp
  · decide

/-- C8 (amended): `GetWriteQueueSize` returns 0 whenever the stream handle
is absent, and otherwise the handle's `write_queue_size` reduced modulo
`2 ^ 32` (the `uint32_t` narrowing in the code); it reads but never writes
adapter or handle state (the embedding is a pure function of the state). -/
theorem getWriteQueueSize_accounting (w : WrapState) :
    (w.stream = none → LibuvStreamWrap.GetWriteQueueSize w = 0) ∧
    (∀ s, w.stream = some s →
      LibuvStreamWrap.GetWriteQueueSize w = s.write_queue_size % 2 ^ 32) := by
  constructor
  · intro h
    simp [LibuvStreamWrap.GetWriteQueueSize, h]
  · intro s h
    simp [LibuvStreamWrap.GetWriteQueueSize, h]

/-- Witness for C8 (amended): a freshly constructed adapter with no handle
reports 0, and a fake handle's small queue depth passes through. -/
theorem getWriteQueueSize_accounting_witness :
    LibuvStreamWrap.GetWriteQueueSize ⟨true, none⟩ = 0 ∧
    LibuvStreamWrap.GetWriteQueueSize
      ⟨true, some ⟨77, UvHandleType.namedPipe⟩⟩ = 77 % 2 ^ 32 :=
  ⟨(getWriteQueueSize_accounting ⟨true, none⟩).1 rfl,
   (getWriteQueueSize_accounting ⟨true, some ⟨77, UvHandleType.namedPipe⟩⟩).2
     ⟨77, UvHandleType.namedPipe⟩ rfl⟩

/-- C9: `DoWrite` always marks the write request as dispatched — even when
the kernel dispatch returns a negative status — while the instrumentation
byte count is incremented by the total buffer length exactly when dispatch
returns 0. -/
theorem doWrite_dispatched_and_counters (ty : UvHandleType)
    (bufs : List uv_buf_t) (sh : Option Unit) (r : Int) :
    (LibuvStreamWrap.DoWrite ty bufs sh r).dispatchedCalled = true ∧
    (r = 0 → (LibuvStreamWrap.DoWrite ty bufs sh r).bytesCounted =
      totalLen bufs) ∧
    (r ≠ 0 → (LibuvStreamWrap.DoWrite ty bufs sh r).bytesCounted = 0) := by
  refine ⟨rfl, fun h => ?_, fun h => ?_⟩
  · simp [LibuvStreamWrap.DoWrite, h]
  · simp [LibuvStreamWrap.DoWrite, h]

/-- Witness for C9: a failed dispatch (`r = -32`, `EPIPE`) still marks the
request dispatched and counts no bytes; a successful one counts them. -/
theorem doWrite_dispatched_and_counters_witness :
    (LibuvStreamWrap.DoWrite UvHandleType.tcp [⟨0, 3⟩] none
      (-32)).dispatchedCalled = true ∧
    (LibuvStreamWrap.DoWrite UvHandleType.tcp [⟨0, 3⟩] none
      (-32)).bytesCounted = 0 ∧
    (LibuvStreamWrap.DoWrite UvHandleType.tcp [⟨0, 3⟩] none 0).bytesCounted =
      totalLen [⟨0, 3⟩] :=
  ⟨(doWrite_dispatched_and_counters UvHandleType.tcp [⟨0, 3⟩] none (-32)).1,
   (doWrite_dispatched_and_counters UvHandleType.tcp [⟨0, 3⟩] none
     (-32)).2.2 (by decide),
   (doWrite_dispatched_and_counters UvHandleType.tcp [⟨0, 3⟩] none 0).2.1 rfl⟩

/-- C10: for every read completion with a zero or negative byte count,
`OnUvRead` neither invokes the handle acceptor nor sets the `pendingHandle`
property — even when the IPC pipe reports pending ancillary handle data and
its type was already queried. -/
theorem onUvRead_no_accept_on_nonpositive (st : PipeState) (env : AcceptEnv)
    (nread : Int) (buf : uv_buf_t) (h : nread ≤ 0) :
    (LibuvStreamWrap.OnUvRead st env nread buf).acceptorInvoked = false ∧
    (LibuvStreamWrap.OnUvRead st env nread buf).pendingHandle = none := by
  rw [LibuvStreamWrap.onUvRead_nonpos st env nread buf (by omega)]
  exact ⟨rfl, rfl⟩

/-- Witness for C10: a zero-byte read on an IPC pipe with a pending TCP-kind
handle (the pending type resolves to `UV_TCP`) accepts nothing. -/
theorem onUvRead_no_accept_on_nonpositive_witness :
    LibuvStreamWrap.pendingHandleType ⟨true, 1, UvHandleType.tcp, false, true⟩ =
      UvHandleType.tcp ∧
    (LibuvStreamWrap.OnUvRead ⟨true, 1, UvHandleType.tcp, false, true⟩
        ⟨true, true⟩ 0 ⟨0, 16⟩).acceptorInvoked = false ∧
    (LibuvStreamWrap.OnUvRead ⟨true, 1, UvHandleType.tcp, false, true⟩
        ⟨true, true⟩ 0 ⟨0, 16⟩).pendingHandle = none :=
  ⟨by decide,
   onUvRead_no_accept_on_nonpositive ⟨true, 1, UvHandleType.tcp, false, true⟩
     ⟨true, true⟩ 0 ⟨0, 16⟩ (by decide)⟩
